import Mathlib

/-!
Shallow embedding of the resource-monitor core (`src/api/monitor.rs`).

The `sysinfo` crate is external: we model a `sysinfo::System` as a record of
the observable readings the core consumes, and the OS-facing behaviour
(`System::new_all`, `refresh_all`, `refresh_cpu_usage`, `refresh_cpu_all`,
and the static `boot_time` / `uptime` readers) as an abstract environment
`Env` of transition functions on that record, universally quantified in the
theorems.  `f32` / `f64` readings are modelled as `Rat`; `u64` fields as
`Nat` with the one `as i64` cast made explicit; a Rust panic is modelled as
`Option.none`.
-/

/-- One entry of `sysinfo::System::cpus()`: the raw per-logical-CPU reading. -/
structure RawCpu where
  name : String
  vendor_id : String
  brand : String
  cpu_usage : Rat
  frequency : Nat
deriving Repr, DecidableEq

/-- The observable state of a `sysinfo::System` handle: every reading the
core ever extracts from it.  `processes` keeps only what the core uses
(`processes().len()`), as an opaque list of process identifiers. -/
structure System where
  cpus : List RawCpu
  global_cpu_usage : Rat
  physical_core_count : Option Nat
  available_memory : Nat
  used_memory : Nat
  total_memory : Nat
  processes : List String
deriving Repr, DecidableEq

/-- `sysinfo::System::new()`: a handle with nothing loaded; every reading is
zero or empty. -/
def System.new : System :=
  { cpus := [], global_cpu_usage := 0, physical_core_count := none,
    available_memory := 0, used_memory := 0, total_memory := 0, processes := [] }

/-- The OS-facing behaviour of the `sysinfo` crate: what the constructor and
each category-scoped refresh primitive return, plus the static time readers
and the crate constant `MINIMUM_CPU_UPDATE_INTERVAL` (milliseconds). -/
structure Env where
  new_all : System
  refresh_all : System → System
  refresh_cpu_all : System → System
  refresh_cpu_usage : System → System
  boot_time : Nat
  uptime : Nat
  minimum_cpu_update_interval : Nat

/-- The `CPU` struct of `monitor.rs`.  It is genuinely recursive in the
source (`processes: Vec<CPU>`), hence an inductive with named projections
below. -/
inductive CPU : Type where
  | mk (processes : List CPU) (cpu_usage : Rat) (core_count : Nat)
       (frequency : Rat) (name : String) (vendor_id : String) (brand : String) : CPU

def CPU.processes : CPU → List CPU
  | .mk p _ _ _ _ _ _ => p

def CPU.cpu_usage : CPU → Rat
  | .mk _ u _ _ _ _ _ => u

def CPU.core_count : CPU → Nat
  | .mk _ _ c _ _ _ _ => c

def CPU.frequency : CPU → Rat
  | .mk _ _ _ f _ _ _ => f

def CPU.name : CPU → String
  | .mk _ _ _ _ n _ _ => n

def CPU.vendor_id : CPU → String
  | .mk _ _ _ _ _ v _ => v

def CPU.brand : CPU → String
  | .mk _ _ _ _ _ _ b => b

/-- Field update `self.cpu_usage = u`. -/
def CPU.set_cpu_usage : CPU → Rat → CPU
  | .mk p _ c f n v b, u => .mk p u c f n v b

/-- Field update `self.frequency = f`. -/
def CPU.set_frequency : CPU → Rat → CPU
  | .mk p u c _ n v b, f => .mk p u c f n v b

/-- Field update `self.processes = ps`. -/
def CPU.set_processes : CPU → List CPU → CPU
  | .mk _ u c f n v b, ps => .mk ps u c f n v b

/-- `Default for CPU` (all numeric fields zero, strings empty, no children). -/
def CPU.default : CPU := .mk [] 0 0 0 "" "" ""

/-- `CPU::load_from_raw`: copy identity strings, usage and frequency from a
raw probe entry; `core_count` 0 and `processes` empty. -/
def CPU.load_from_raw (raw_cpu : RawCpu) : CPU :=
  .mk [] raw_cpu.cpu_usage 0 (raw_cpu.frequency : Rat)
     raw_cpu.name raw_cpu.vendor_id raw_cpu.brand

/-- `CPU::get_cpu_frequency_ghz`: `frequency * 0.001`. -/
def CPU.get_cpu_frequency_ghz (c : CPU) : Rat :=
  c.frequency * (1 / 1000)

/-- The `SysResources` struct of `monitor.rs`. -/
structure SysResources where
  available_memory : Nat
  used_memory : Nat
  total_memory : Nat
  boot_time : Nat
  uptime : Nat
  cpu : CPU
  num_of_processes : Nat
  system : System

/-- `SysResources::new()`. -/
def SysResources.new : SysResources :=
  { available_memory := 0, used_memory := 0, total_memory := 0,
    boot_time := 0, uptime := 0, cpu := CPU.default,
    num_of_processes := 0, system := System.new }

/-- `BYTES_PER_GB = 1024 * 1024 * 1024`. -/
def BYTES_PER_GB : Nat := 1024 * 1024 * 1024

/-- `used_memory_gb`: integer division of the byte count. -/
def SysResources.used_memory_gb (s : SysResources) : Nat :=
  s.used_memory / BYTES_PER_GB

/-- `available_memory_gb`. -/
def SysResources.available_memory_gb (s : SysResources) : Nat :=
  s.available_memory / BYTES_PER_GB

/-- `total_memory_gb`. -/
def SysResources.total_memory_gb (s : SysResources) : Nat :=
  s.total_memory / BYTES_PER_GB

/-- The Rust cast `n as i64` applied to a `u64` value: two's-complement
reinterpretation. -/
def u64_as_i64 (n : Nat) : Int :=
  if n < 2 ^ 63 then (n : Int) else (n : Int) - 2 ^ 64

/-- Smallest whole-second timestamp representable by a chrono
`NaiveDateTime` (midnight of January 1 of year -262144). -/
def chronoMinTimestamp : Int := -8334632851200

/-- Largest whole-second timestamp representable by a chrono
`NaiveDateTime` (23:59:59 of December 31 of year 262143). -/
def chronoMaxTimestamp : Int := 8210298412799

/-- Whether a seconds value is inside chrono's representable range. -/
def tsInRange (secs : Int) : Prop :=
  chronoMinTimestamp ≤ secs ∧ secs ≤ chronoMaxTimestamp

instance (secs : Int) : Decidable (tsInRange secs) := by
  unfold tsInRange; infer_instance

/-- `chrono::DateTime::from_timestamp(secs, 0)` followed by
`.naive_local()` on the resulting `DateTime<Utc>` (which, at offset zero,
is just the UTC instant).  The instant is modelled by its timestamp. -/
def dateTimeFromTimestamp (secs : Int) : Option Int :=
  if tsInRange secs then some secs else none

/-- `SysResources::get_uptime`. -/
def SysResources.get_uptime (s : SysResources) : Option Int :=
  match dateTimeFromTimestamp (u64_as_i64 s.uptime) with
  | some utc => some utc
  | none => none

/-- `SysResources::get_boot_time`. -/
def SysResources.get_boot_time (s : SysResources) : Option Int :=
  match dateTimeFromTimestamp (u64_as_i64 s.boot_time) with
  | some utc => some utc
  | none => none

/-- Observable actions of `get_cpu_usage`: category refreshes and the
thread sleep with its duration. -/
inductive Event : Type where
  | refreshCpuUsage : Event
  | sleep (ms : Nat) : Event
deriving Repr, DecidableEq

/-- `SysResources::get_cpu_usage`: refresh the usage category, sleep for
`MINIMUM_CPU_UPDATE_INTERVAL`, refresh again, store the global usage into
`cpu.cpu_usage` and return that field.  Returns the value, the updated
snapshot, and the trace of observable actions. -/
def SysResources.get_cpu_usage (env : Env) (s : SysResources) :
    Rat × SysResources × List Event :=
  let sys1 := env.refresh_cpu_usage s.system
  let sys2 := env.refresh_cpu_usage sys1
  let u := sys2.global_cpu_usage
  (u, { s with system := sys2, cpu := s.cpu.set_cpu_usage u },
   [Event.refreshCpuUsage, Event.sleep env.minimum_cpu_update_interval,
    Event.refreshCpuUsage])

/-- `SysResources::load_cpu_info`: refresh all CPU categories, then index
`cpus()[0]` — a panic (`none`) when the list is empty — and overwrite every
field of `self.cpu`. -/
def SysResources.load_cpu_info (env : Env) (s : SysResources) :
    Option SysResources :=
  let sys := env.refresh_cpu_all s.system
  match sys.cpus.get? 0 with
  | none => none
  | some raw_cpu =>
      some { s with
        system := sys,
        cpu := .mk (sys.cpus.map CPU.load_from_raw)
                   raw_cpu.cpu_usage
                   (sys.physical_core_count.getD 0)
                   (raw_cpu.frequency : Rat)
                   raw_cpu.name raw_cpu.vendor_id raw_cpu.brand }

/-- `SysResources::load`: replace the handle by `System::new_all()`, read
the memory, time and process figures, then run the CPU load subroutine. -/
def SysResources.load (env : Env) (s : SysResources) : Option SysResources :=
  let sys := env.new_all
  SysResources.load_cpu_info env
    { s with
      system := sys,
      available_memory := sys.available_memory,
      used_memory := sys.used_memory,
      boot_time := env.boot_time,
      uptime := env.uptime,
      num_of_processes := sys.processes.length,
      total_memory := sys.total_memory }

/-- The loop body of `reload_cpu_cores`: for each raw CPU at index `i`,
overwrite `cpu_usage` and `frequency` of `processes[i]` when that child
exists; children beyond the raw list are left alone, raw CPUs beyond the
children are ignored. -/
def updateCores : List CPU → List RawCpu → List CPU
  | [], _ => []
  | cs, [] => cs
  | c :: cs, r :: rs =>
      ((c.set_cpu_usage r.cpu_usage).set_frequency (r.frequency : Rat))
        :: updateCores cs rs

/-- `SysResources::reload_cpu_cores`. -/
def SysResources.reload_cpu_cores (s : SysResources) : SysResources :=
  { s with cpu := s.cpu.set_processes (updateCores s.cpu.processes s.system.cpus) }

/-- `SysResources::reload_cpu_info`: sample the global usage (blocking),
then `cpus().get(0).unwrap()` — a panic (`none`) when the list is empty —
re-read the aggregate frequency, and update the children in place. -/
def SysResources.reload_cpu_info (env : Env) (s : SysResources) :
    Option SysResources :=
  let s1 := (SysResources.get_cpu_usage env s).2.1
  match s1.system.cpus.get? 0 with
  | none => none
  | some raw_cpu =>
      some (SysResources.reload_cpu_cores
        { s1 with cpu := s1.cpu.set_frequency (raw_cpu.frequency : Rat) })

/-- `SysResources::reload`. -/
def SysResources.reload (env : Env) (s : SysResources) : Option SysResources :=
  let sys := env.refresh_all s.system
  SysResources.reload_cpu_info env
    { s with
      system := sys,
      uptime := env.uptime,
      available_memory := sys.available_memory,
      used_memory := sys.used_memory,
      num_of_processes := sys.processes.length }

/-- `n` successive calls of `reload()`, each only meaningful when the
previous one returned normally. -/
def reloadN (env : Env) : Nat → SysResources → Option SysResources
  | 0, s => some s
  | n + 1, s => (SysResources.reload env s).bind (reloadN env n)

/-- The `sysinfo::System` state reached inside `reload()` at the moment
`reload_cpu_info` consults `cpus()`: `refresh_all` followed by the two
usage refreshes of the sampling protocol. -/
def reloadSystem (env : Env) (s : SysResources) : System :=
  env.refresh_cpu_usage (env.refresh_cpu_usage (env.refresh_all s.system))

/-! ### Concrete probe behaviours, used to evaluate the theorems -/

def rawA : RawCpu :=
  { name := "cpu0", vendor_id := "vend", brand := "model", cpu_usage := 25,
    frequency := 3000 }

def rawB : RawCpu :=
  { name := "cpu1", vendor_id := "vend", brand := "model", cpu_usage := 30,
    frequency := 2000 }

def sysOne : System :=
  { cpus := [rawA], global_cpu_usage := 10, physical_core_count := some 1,
    available_memory := 12 * BYTES_PER_GB, used_memory := 4 * BYTES_PER_GB,
    total_memory := 16 * BYTES_PER_GB, processes := ["a"] }

def sysTwo : System :=
  { sysOne with cpus := [rawA, rawB], physical_core_count := some 2 }

def sysEmpty : System := { sysOne with cpus := [] }

def sysNoPcc : System := { sysOne with physical_core_count := none }

/-- An adapter behaviour whose refreshes always produce the same reading. -/
def constEnv (sys : System) : Env :=
  { new_all := sys, refresh_all := fun _ => sys, refresh_cpu_all := fun _ => sys,
    refresh_cpu_usage := fun _ => sys, boot_time := 1700000000, uptime := 3600,
    minimum_cpu_update_interval := 200 }

def envOne : Env := constEnv sysOne

def envTwo : Env := constEnv sysTwo

def envEmpty : Env := constEnv sysEmpty

def envNoPcc : Env := constEnv sysNoPcc

/-- A snapshot loaded against a one-CPU probe. -/
def sLoadedOne : SysResources :=
  (SysResources.load envOne SysResources.new).getD SysResources.new

/-- A snapshot loaded against a two-CPU probe. -/
def sLoadedTwo : SysResources :=
  (SysResources.load envTwo SysResources.new).getD SysResources.new

/-- `sLoadedOne` after one `reload()` against the one-CPU probe. -/
def sReloadedOne : SysResources :=
  (SysResources.reload envOne sLoadedOne).getD SysResources.new

/-- `sLoadedOne` after two `reload()` calls against the one-CPU probe. -/
def sReloadedTwice : SysResources :=
  (reloadN envOne 2 sLoadedOne).getD SysResources.new

/-- `sLoadedTwo` reloaded against a probe that now reports only one CPU:
child 1 is surplus. -/
def sShrunk : SysResources :=
  (SysResources.reload envOne sLoadedTwo).getD SysResources.new

/-- A snapshot whose stored epochs are `u64::MAX`. -/
def sMaxEpoch : SysResources :=
  { SysResources.new with boot_time := 2 ^ 64 - 1, uptime := 2 ^ 64 - 1 }

/-- A snapshot loaded against a probe that reports no physical core count. -/
def sLoadedNoPcc : SysResources :=
  (SysResources.load envNoPcc SysResources.new).getD SysResources.new

/-! ### Projection lemmas for the `CPU` setters -/

@[simp] theorem CPU.processes_set_cpu_usage (c : CPU) (u : Rat) :
    (c.set_cpu_usage u).processes = c.processes := by cases c; rfl

@[simp] theorem CPU.cpu_usage_set_cpu_usage (c : CPU) (u : Rat) :
    (c.set_cpu_usage u).cpu_usage = u := by cases c; rfl

@[simp] theorem CPU.core_count_set_cpu_usage (c : CPU) (u : Rat) :
    (c.set_cpu_usage u).core_count = c.core_count := by cases c; rfl

@[simp] theorem CPU.frequency_set_cpu_usage (c : CPU) (u : Rat) :
    (c.set_cpu_usage u).frequency = c.frequency := by cases c; rfl

@[simp] theorem CPU.name_set_cpu_usage (c : CPU) (u : Rat) :
    (c.set_cpu_usage u).name = c.name := by cases c; rfl

@[simp] theorem CPU.vendor_id_set_cpu_usage (c : CPU) (u : Rat) :
    (c.set_cpu_usage u).vendor_id = c.vendor_id := by cases c; rfl

@[simp] theorem CPU.brand_set_cpu_usage (c : CPU) (u : Rat) :
    (c.set_cpu_usage u).brand = c.brand := by cases c; rfl

@[simp] theorem CPU.processes_set_frequency (c : CPU) (f : Rat) :
    (c.set_frequency f).processes = c.processes := by cases c; rfl

@[simp] theorem CPU.cpu_usage_set_frequency (c : CPU) (f : Rat) :
    (c.set_frequency f).cpu_usage = c.cpu_usage := by cases c; rfl

@[simp] theorem CPU.core_count_set_frequency (c : CPU) (f : Rat) :
    (c.set_frequency f).core_count = c.core_count := by cases c; rfl

@[simp] theorem CPU.frequency_set_frequency (c : CPU) (f : Rat) :
    (c.set_frequency f).frequency = f := by cases c; rfl

@[simp] theorem CPU.name_set_frequency (c : CPU) (f : Rat) :
    (c.set_frequency f).name = c.name := by cases c; rfl

@[simp] theorem CPU.vendor_id_set_frequency (c : CPU) (f : Rat) :
    (c.set_frequency f).vendor_id = c.vendor_id := by cases c; rfl

@[simp] theorem CPU.brand_set_frequency (c : CPU) (f : Rat) :
    (c.set_frequency f).brand = c.brand := by cases c; rfl

@[simp] theorem CPU.processes_set_processes (c : CPU) (ps : List CPU) :
    (c.set_processes ps).processes = ps := by cases c; rfl

@[simp] theorem CPU.cpu_usage_set_processes (c : CPU) (ps : List CPU) :
    (c.set_processes ps).cpu_usage = c.cpu_usage := by cases c; rfl

@[simp] theorem CPU.core_count_set_processes (c : CPU) (ps : List CPU) :
    (c.set_processes ps).core_count = c.core_count := by cases c; rfl

@[simp] theorem CPU.frequency_set_processes (c : CPU) (ps : List CPU) :
    (c.set_processes ps).frequency = c.frequency := by cases c; rfl

@[simp] theorem CPU.name_set_processes (c : CPU) (ps : List CPU) :
    (c.set_processes ps).name = c.name := by cases c; rfl

@[simp] theorem CPU.vendor_id_set_processes (c : CPU) (ps : List CPU) :
    (c.set_processes ps).vendor_id = c.vendor_id := by cases c; rfl

@[simp] theorem CPU.brand_set_processes (c : CPU) (ps : List CPU) :
    (c.set_processes ps).brand = c.brand := by cases c; rfl

/-! ### Facts about the in-place child update `updateCores` -/

theorem updateCores_length : ∀ (cs : List CPU) (rs : List RawCpu),
    (updateCores cs rs).length = cs.length
  | [], _ => by cases ‹List RawCpu› <;> rfl
  | _ :: cs, [] => rfl
  | c :: cs, r :: rs => by
      simp [updateCores, updateCores_length cs rs]

theorem updateCores_get?_of_rs_none (cs : List CPU) (rs : List RawCpu) (i : Nat)
    (h : rs.get? i = none) : (updateCores cs rs).get? i = cs.get? i := by
  induction cs generalizing rs i with
  | nil => cases rs <;> rfl
  | cons c cs ih =>
      cases rs with
      | nil => rfl
      | cons r rs => cases i with
        | zero => simp at h
        | succ i =>
            simp only [List.get?_cons_succ] at h ⊢
            exact ih rs i h

theorem updateCores_map {α : Type} (f : CPU → α)
    (hf : ∀ c u r, f ((c.set_cpu_usage u).set_frequency r) = f c) :
    ∀ (cs : List CPU) (rs : List RawCpu),
      (updateCores cs rs).map f = cs.map f
  | [], rs => by cases rs <;> rfl
  | _ :: cs, [] => rfl
  | c :: cs, r :: rs => by
      simp [updateCores, hf, updateCores_map f hf cs rs]

theorem updateCores_mem : ∀ (cs : List CPU) (rs : List RawCpu) (c : CPU),
    c ∈ updateCores cs rs →
    ∃ c0, c0 ∈ cs ∧ c.processes = c0.processes ∧ c.core_count = c0.core_count
  | [], rs, c => by cases rs <;> simp [updateCores]
  | c0 :: cs, [], c => fun h => ⟨c, h, rfl, rfl⟩
  | c0 :: cs, r :: rs, c => by
      intro h
      rcases List.mem_cons.mp h with h | h
      · exact ⟨c0, List.mem_cons_self _ _, by simp [h], by simp [h]⟩
      · rcases updateCores_mem cs rs c h with ⟨c1, hc1, h1, h2⟩
        exact ⟨c1, List.mem_cons_of_mem _ hc1, h1, h2⟩

/-! ### Characterization of `reload` and `load` -/

theorem reload_eq_of_get (env : Env) (s : SysResources) (raw : RawCpu)
    (hraw : (reloadSystem env s).cpus.get? 0 = some raw) :
    SysResources.reload env s =
      some { s with
        system := reloadSystem env s,
        uptime := env.uptime,
        available_memory := (env.refresh_all s.system).available_memory,
        used_memory := (env.refresh_all s.system).used_memory,
        num_of_processes := (env.refresh_all s.system).processes.length,
        cpu := ((s.cpu.set_cpu_usage
                  (reloadSystem env s).global_cpu_usage).set_frequency
                  (raw.frequency : Rat)).set_processes
                  (updateCores s.cpu.processes (reloadSystem env s).cpus) } := by
  unfold SysResources.reload SysResources.reload_cpu_info
    SysResources.get_cpu_usage SysResources.reload_cpu_cores
  unfold reloadSystem at hraw
  simp only [hraw]
  simp [reloadSystem]

theorem reload_eq_none_of_get_none (env : Env) (s : SysResources)
    (hraw : (reloadSystem env s).cpus.get? 0 = none) :
    SysResources.reload env s = none := by
  unfold SysResources.reload SysResources.reload_cpu_info
    SysResources.get_cpu_usage
  unfold reloadSystem at hraw
  simp only [hraw]

theorem reload_eq_some (env : Env) (s s2 : SysResources)
    (h : SysResources.reload env s = some s2) :
    ∃ raw, (reloadSystem env s).cpus.get? 0 = some raw ∧
      s2 = { s with
        system := reloadSystem env s,
        uptime := env.uptime,
        available_memory := (env.refresh_all s.system).available_memory,
        used_memory := (env.refresh_all s.system).used_memory,
        num_of_processes := (env.refresh_all s.system).processes.length,
        cpu := ((s.cpu.set_cpu_usage
                  (reloadSystem env s).global_cpu_usage).set_frequency
                  (raw.frequency : Rat)).set_processes
                  (updateCores s.cpu.processes (reloadSystem env s).cpus) } := by
  cases hraw : (reloadSystem env s).cpus.get? 0 with
  | none => rw [reload_eq_none_of_get_none env s hraw] at h; exact absurd h (by simp)
  | some raw =>
      refine ⟨raw, rfl, ?_⟩
      rw [reload_eq_of_get env s raw hraw] at h
      exact (Option.some.injEq _ _ ▸ h).symm

theorem load_eq_some (env : Env) (s s0 : SysResources)
    (h : SysResources.load env s = some s0) :
    ∃ raw, (env.refresh_cpu_all env.new_all).cpus.get? 0 = some raw ∧
      s0 = { available_memory := env.new_all.available_memory,
             used_memory := env.new_all.used_memory,
             total_memory := env.new_all.total_memory,
             boot_time := env.boot_time,
             uptime := env.uptime,
             num_of_processes := env.new_all.processes.length,
             system := env.refresh_cpu_all env.new_all,
             cpu := .mk ((env.refresh_cpu_all env.new_all).cpus.map CPU.load_from_raw)
                        raw.cpu_usage
                        ((env.refresh_cpu_all env.new_all).physical_core_count.getD 0)
                        (raw.frequency : Rat)
                        raw.name raw.vendor_id raw.brand } := by
  unfold SysResources.load SysResources.load_cpu_info at h
  cases hraw : (env.refresh_cpu_all env.new_all).cpus.get? 0 with
  | none => simp only [hraw] at h; exact Option.noConfusion h
  | some raw =>
      simp only [hraw] at h
      exact ⟨raw, rfl, (Option.some.injEq _ _ ▸ h).symm⟩

/-! ### Claims -/

/-- C1, counterexample: against a probe whose refresh reports zero logical
CPUs, `reload()` on a loaded snapshot does not complete — it hits the
`cpus().get(0).unwrap()` panic (modelled as `none`) instead of silently
skipping the CPU updates. -/
theorem c1_counterexample :
    (reloadSystem envEmpty sLoadedOne).cpus = [] ∧
    SysResources.reload envEmpty sLoadedOne = none :=
  ⟨rfl, rfl⟩

/-- C1 (amended): if the probe reports zero logical CPUs after the refreshes
performed during `reload()`, then `reload()` fails (panics on unwrapping the
first CPU) rather than completing. -/
theorem c1_reload_with_empty_cpu_list_panics (env : Env) (s : SysResources)
    (h : (reloadSystem env s).cpus = []) :
    SysResources.reload env s = none :=
  reload_eq_none_of_get_none env s (by rw [h]; rfl)

/-- C1 witness: the amended statement evaluated on the empty-CPU probe. -/
theorem c1_witness : SysResources.reload envEmpty sLoadedOne = none :=
  c1_reload_with_empty_cpu_list_panics envEmpty sLoadedOne rfl

/-- C2, counterexample: the claim says a zero stored epoch yields `none`,
but on the snapshot whose `boot_time` and `uptime` are 0 both accessors
yield the Unix epoch instant (`some 0`). -/
theorem c2_counterexample :
    SysResources.new.boot_time = 0 ∧ SysResources.new.uptime = 0 ∧
    SysResources.new.get_boot_time = some 0 ∧
    SysResources.new.get_uptime = some 0 :=
  ⟨rfl, rfl, rfl, rfl⟩

/-- C2 (amended): a zero stored epoch yields the epoch instant (`some`),
not `none` (and a `u64` field is never negative); the accessors yield
`none` exactly when the stored value, reinterpreted as `i64`, falls outside
chrono's representable timestamp range. -/
theorem c2_time_accessors_absent_iff_unrepresentable (s : SysResources) :
    (s.boot_time = 0 → s.get_boot_time = some 0) ∧
    (s.uptime = 0 → s.get_uptime = some 0) ∧
    (s.get_boot_time = none ↔ ¬ tsInRange (u64_as_i64 s.boot_time)) ∧
    (s.get_uptime = none ↔ ¬ tsInRange (u64_as_i64 s.uptime)) := by
  refine ⟨?_, ?_, ?_, ?_⟩
  · intro h
    unfold SysResources.get_boot_time dateTimeFromTimestamp
    rw [h]; decide
  · intro h
    unfold SysResources.get_uptime dateTimeFromTimestamp
    rw [h]; decide
  · unfold SysResources.get_boot_time dateTimeFromTimestamp
    by_cases hb : tsInRange (u64_as_i64 s.boot_time) <;> simp [hb]
  · unfold SysResources.get_uptime dateTimeFromTimestamp
    by_cases hb : tsInRange (u64_as_i64 s.uptime) <;> simp [hb]

/-- C2 witness: the amended statement evaluated at the all-zero snapshot. -/
theorem c2_witness : SysResources.new.get_boot_time = some 0 :=
  (c2_time_accessors_absent_iff_unrepresentable SysResources.new).1 rfl

/-- C5: `get_cpu_usage()` refreshes the usage category, sleeps for the
minimum sampling interval, refreshes again, stores the global usage
percentage into `cpu.cpu_usage`, and returns exactly the value observed in
`cpu.cpu_usage` after the call. -/
theorem c5_get_cpu_usage_protocol (env : Env) (s : SysResources) :
    (SysResources.get_cpu_usage env s).2.2 =
      [Event.refreshCpuUsage, Event.sleep env.minimum_cpu_update_interval,
       Event.refreshCpuUsage] ∧
    (SysResources.get_cpu_usage env s).2.1.system =
      env.refresh_cpu_usage (env.refresh_cpu_usage s.system) ∧
    (SysResources.get_cpu_usage env s).2.1.cpu.cpu_usage =
      (env.refresh_cpu_usage (env.refresh_cpu_usage s.system)).global_cpu_usage ∧
    (SysResources.get_cpu_usage env s).1 =
      (SysResources.get_cpu_usage env s).2.1.cpu.cpu_usage := by
  refine ⟨rfl, rfl, ?_, ?_⟩ <;> simp [SysResources.get_cpu_usage]

/-- C6: the three `_gb` accessors divide their byte field by the binary
gibibyte 1 073 741 824 with truncating division; any value below one
gibibyte yields 0. -/
theorem c6_memory_gb_accessors (s : SysResources) :
    s.used_memory_gb = s.used_memory / 1073741824 ∧
    s.available_memory_gb = s.available_memory / 1073741824 ∧
    s.total_memory_gb = s.total_memory / 1073741824 ∧
    (s.used_memory < 1073741824 → s.used_memory_gb = 0) ∧
    (s.available_memory < 1073741824 → s.available_memory_gb = 0) ∧
    (s.total_memory < 1073741824 → s.total_memory_gb = 0) := by
  refine ⟨rfl, rfl, rfl, ?_, ?_, ?_⟩ <;> exact fun h => Nat.div_eq_of_lt h

/-- C6 witness: the below-one-gibibyte clause evaluated at the empty
snapshot. -/
theorem c6_witness :
    SysResources.new.used_memory < 1073741824 ∧
    SysResources.new.used_memory_gb = 0 :=
  ⟨by decide, (c6_memory_gb_accessors SysResources.new).2.2.2.1 (by decide)⟩

/-- C9: the time accessors cast the stored `u64` seconds with `as i64`;
`u64::MAX` wraps to `-1`, so both accessors return the pre-1970 instant one
second before the epoch (`some (-1)`) rather than `none`. -/
theorem c9_u64_cast_wraps (s : SysResources)
    (hb : s.boot_time = 2 ^ 64 - 1) (hu : s.uptime = 2 ^ 64 - 1) :
    2 ^ 63 ≤ s.boot_time ∧
    u64_as_i64 s.boot_time = -1 ∧
    s.get_boot_time = some (-1) ∧
    s.get_uptime = some (-1) ∧
    ∀ t, s.get_boot_time = some t → t < 0 := by
  unfold SysResources.get_boot_time SysResources.get_uptime dateTimeFromTimestamp
  rw [hb, hu]
  refine ⟨by decide, by decide, by decide, by decide, ?_⟩
  intro t ht
  rw [show (match (if tsInRange (u64_as_i64 (2 ^ 64 - 1)) then
      some (u64_as_i64 (2 ^ 64 - 1)) else none) with
      | some utc => some utc | none => none) = some (-1 : Int) from by decide] at ht
  cases ht
  decide

/-- C9 witness: evaluated at the snapshot whose epochs are `u64::MAX`. -/
theorem c9_witness : sMaxEpoch.get_boot_time = some (-1) :=
  (c9_u64_cast_wraps sMaxEpoch rfl rfl).2.2.1

/-! ### Helper lemmas shared by the frame and invariant claims -/

theorem reload_preserves_processes_length (env : Env) (s s2 : SysResources)
    (h : SysResources.reload env s = some s2) :
    s2.cpu.processes.length = s.cpu.processes.length := by
  obtain ⟨raw, hraw, rfl⟩ := reload_eq_some env s s2 h
  simp [updateCores_length]

theorem load_establishes_children (env : Env) (s s0 : SysResources)
    (h : SysResources.load env s = some s0) :
    s0.cpu.processes ≠ [] ∧
    ∀ c ∈ s0.cpu.processes, c.processes = [] ∧ c.core_count = 0 := by
  obtain ⟨raw, hraw, rfl⟩ := load_eq_some env s s0 h
  constructor
  · cases hc : (env.refresh_cpu_all env.new_all).cpus with
    | nil => rw [hc] at hraw; exact Option.noConfusion hraw
    | cons a l => simp [CPU.processes, hc]
  · intro c hc
    simp only [CPU.processes] at hc
    rcases List.mem_map.mp hc with ⟨r, _, rfl⟩
    exact ⟨rfl, rfl⟩

theorem reload_preserves_children (env : Env) (s s2 : SysResources)
    (h : SysResources.reload env s = some s2)
    (hs : ∀ c ∈ s.cpu.processes, c.processes = [] ∧ c.core_count = 0) :
    ∀ c ∈ s2.cpu.processes, c.processes = [] ∧ c.core_count = 0 := by
  obtain ⟨raw, hraw, rfl⟩ := reload_eq_some env s s2 h
  intro c hc
  simp only [CPU.processes_set_processes] at hc
  rcases updateCores_mem _ _ c hc with ⟨c0, hc0, h1, h2⟩
  exact ⟨h1.trans (hs c0 hc0).1, h2.trans (hs c0 hc0).2⟩

/-! ### Claims C3, C4, C7, C8, C10 -/

/-- C3: `reload()` leaves `total_memory`, `boot_time`, `cpu.core_count`,
`cpu.name`, `cpu.vendor_id`, `cpu.brand`, and each child's `name`,
`vendor_id` and `brand` exactly equal to their pre-reload values. -/
theorem c3_reload_preserves_frozen_fields (env : Env) (s s2 : SysResources)
    (h : SysResources.reload env s = some s2) :
    s2.total_memory = s.total_memory ∧
    s2.boot_time = s.boot_time ∧
    s2.cpu.core_count = s.cpu.core_count ∧
    s2.cpu.name = s.cpu.name ∧
    s2.cpu.vendor_id = s.cpu.vendor_id ∧
    s2.cpu.brand = s.cpu.brand ∧
    s2.cpu.processes.map CPU.name = s.cpu.processes.map CPU.name ∧
    s2.cpu.processes.map CPU.vendor_id = s.cpu.processes.map CPU.vendor_id ∧
    s2.cpu.processes.map CPU.brand = s.cpu.processes.map CPU.brand := by
  obtain ⟨raw, hraw, rfl⟩ := reload_eq_some env s s2 h
  refine ⟨rfl, rfl, by simp, by simp, by simp, by simp, ?_, ?_, ?_⟩
  · simpa using updateCores_map CPU.name (fun c u r => by simp) s.cpu.processes
      (reloadSystem env s).cpus
  · simpa using updateCores_map CPU.vendor_id (fun c u r => by simp) s.cpu.processes
      (reloadSystem env s).cpus
  · simpa using updateCores_map CPU.brand (fun c u r => by simp) s.cpu.processes
      (reloadSystem env s).cpus

/-- C3 witness: the frame equalities evaluated on the one-CPU probe. -/
theorem c3_witness :
    sReloadedOne.total_memory = sLoadedOne.total_memory ∧
    sReloadedOne.boot_time = sLoadedOne.boot_time ∧
    sReloadedOne.cpu.core_count = sLoadedOne.cpu.core_count ∧
    sReloadedOne.cpu.name = sLoadedOne.cpu.name ∧
    sReloadedOne.cpu.vendor_id = sLoadedOne.cpu.vendor_id ∧
    sReloadedOne.cpu.brand = sLoadedOne.cpu.brand ∧
    sReloadedOne.cpu.processes.map CPU.name = sLoadedOne.cpu.processes.map CPU.name ∧
    sReloadedOne.cpu.processes.map CPU.vendor_id =
      sLoadedOne.cpu.processes.map CPU.vendor_id ∧
    sReloadedOne.cpu.processes.map CPU.brand =
      sLoadedOne.cpu.processes.map CPU.brand :=
  c3_reload_preserves_frozen_fields envOne sLoadedOne sReloadedOne rfl

/-- C4: the length of `cpu.processes` is invariant across any sequence of
`reload()` calls: children are overwritten in place and never added or
removed. -/
theorem c4_processes_length_invariant (env : Env) (n : Nat) (s s2 : SysResources)
    (h : reloadN env n s = some s2) :
    s2.cpu.processes.length = s.cpu.processes.length := by
  induction n generalizing s with
  | zero =>
      simp only [reloadN] at h
      cases h
      rfl
  | succ n ih =>
      rw [reloadN] at h
      cases hr : SysResources.reload env s with
      | none => rw [hr] at h; exact Option.noConfusion h
      | some s1 =>
          rw [hr] at h
          simp only [Option.some_bind] at h
          exact (ih s1 h).trans (reload_preserves_processes_length env s s1 hr)

/-- C4 witness: two reloads against the one-CPU probe leave the child count
unchanged. -/
theorem c4_witness :
    sReloadedTwice.cpu.processes.length = sLoadedOne.cpu.processes.length :=
  c4_processes_length_invariant envOne 2 sLoadedOne sReloadedTwice rfl

/-- C7: after a successful `load()` and any sequence of `reload()` calls,
`cpu.processes` is nonempty and every child has empty `processes` and
`core_count` zero. -/
theorem c7_children_invariant (env : Env) (n : Nat) (s s0 s2 : SysResources)
    (hload : SysResources.load env s = some s0)
    (hrel : reloadN env n s0 = some s2) :
    s2.cpu.processes ≠ [] ∧
    ∀ c ∈ s2.cpu.processes, c.processes = [] ∧ c.core_count = 0 := by
  have base := load_establishes_children env s s0 hload
  clear hload
  induction n generalizing s0 with
  | zero =>
      simp only [reloadN] at hrel
      cases hrel
      exact base
  | succ n ih =>
      rw [reloadN] at hrel
      cases hr : SysResources.reload env s0 with
      | none => rw [hr] at hrel; exact Option.noConfusion hrel
      | some s1 =>
          rw [hr] at hrel
          simp only [Option.some_bind] at hrel
          refine ih s1 hrel ⟨?_, reload_preserves_children env s0 s1 hr base.2⟩
          have hlen := reload_preserves_processes_length env s0 s1 hr
          intro hnil
          exact base.1 (List.length_eq_zero.mp
            (hlen.symm.trans (by rw [hnil]; rfl)))

/-- C7 witness: nonemptiness after load plus one reload on the one-CPU
probe. -/
theorem c7_witness : sReloadedOne.cpu.processes ≠ [] :=
  (c7_children_invariant envOne 1 SysResources.new sLoadedOne sReloadedOne
    rfl rfl).1

/-- C8: `load()` sets `cpu.core_count` to the physical core count reported
by the (refreshed) probe, or to 0 when the probe reports it absent. -/
theorem c8_core_count_from_probe (env : Env) (s s0 : SysResources)
    (h : SysResources.load env s = some s0) :
    s0.cpu.core_count =
      ((env.refresh_cpu_all env.new_all).physical_core_count).getD 0 ∧
    ((env.refresh_cpu_all env.new_all).physical_core_count = none →
      s0.cpu.core_count = 0) ∧
    ∀ k, (env.refresh_cpu_all env.new_all).physical_core_count = some k →
      s0.cpu.core_count = k := by
  obtain ⟨raw, hraw, rfl⟩ := load_eq_some env s s0 h
  refine ⟨by simp [CPU.core_count], ?_, ?_⟩
  · intro hnone; simp [CPU.core_count, hnone]
  · intro k hk; simp [CPU.core_count, hk]

/-- C8 witness: against a probe with an absent physical core count, the
loaded snapshot has `core_count` 0. -/
theorem c8_witness : sLoadedNoPcc.cpu.core_count = 0 :=
  (c8_core_count_from_probe envNoPcc SysResources.new sLoadedNoPcc rfl).2.1 rfl

/-- C10: when a `reload()` leaves the probe reporting fewer logical CPUs
than `cpu.processes` holds, every surplus child (index at or beyond the
refreshed CPU count) is untouched: its `cpu_usage` and `frequency` (indeed
the whole record) keep their previous values. -/
theorem c10_surplus_children_untouched (env : Env) (s s2 : SysResources)
    (h : SysResources.reload env s = some s2) (i : Nat)
    (hs : s2.system.cpus.length ≤ i) :
    s2.cpu.processes.get? i = s.cpu.processes.get? i ∧
    (s2.cpu.processes.get? i).map CPU.cpu_usage =
      (s.cpu.processes.get? i).map CPU.cpu_usage ∧
    (s2.cpu.processes.get? i).map CPU.frequency =
      (s.cpu.processes.get? i).map CPU.frequency := by
  obtain ⟨raw, hraw, rfl⟩ := reload_eq_some env s s2 h
  simp only at hs
  have hrs : (reloadSystem env s).cpus.get? i = none :=
    List.get?_eq_none.mpr hs
  have e := updateCores_get?_of_rs_none s.cpu.processes (reloadSystem env s).cpus i hrs
  simp only [List.get?_eq_getElem?] at e
  refine ⟨?_, ?_, ?_⟩ <;> simp [e]

/-- C10 witness: a two-child snapshot reloaded against a one-CPU probe
keeps child 1 unchanged. -/
theorem c10_witness :
    sShrunk.cpu.processes.get? 1 = sLoadedTwo.cpu.processes.get? 1 :=
  (c10_surplus_children_untouched envOne sLoadedTwo sShrunk rfl 1 (by decide)).1
